import Mathlib

/-!
Shallow embedding of src/init/hss_boot_init.c (HSS boot-image acquisition and
validation pipeline), in the configuration CONFIG_SERVICE_BOOT on,
CONFIG_COMPRESSION on, CONFIG_SERVICE_BOOT_CUSTOM_FLOW off,
CONFIG_SERVICE_BOOT_MMC_USE_GPT on, and the non-XIP QSPI path.

External collaborators (block-read primitives, GPT parser, decompressor, CRC32
arithmetic, core restart) are out of scope per the spec and are modelled as
oracle values/functions supplied in environment records.  Pointers that can be
NULL are modelled as Option, identifying a non-null pointer with the header
value it points at.  Machine integers carry no arithmetic here (only
comparisons), so fields are plain Nat.
-/

/-- Modelled from the spec: the BootImageHeader of hss_types.h (not under src/)
with the fields src/init/hss_boot_init.c reads: magic (u32 sentinel), headerCrc
(u32), bootImageLength (u64), set_name (human-readable buffer). -/
structure HSS_BootImage where
  magic : Nat
  headerCrc : Nat
  bootImageLength : Nat
  set_name : String
  deriving DecidableEq, Repr

/-- Modelled from the spec: the plain boot-image magic sentinel; its numeric
value comes from hss_types.h, which is not under src/; only its fixedness and
distinctness from the compressed sentinel matter here. -/
def mHSS_BOOT_MAGIC : Nat := 0xB007C0DE

/-- Modelled from the spec: the compressed boot-image magic sentinel, distinct
from the plain one (hss_types.h is not under src/). -/
def mHSS_COMPRESSED_MAGIC : Nat := 0xC08B007C

/-- Modelled from the spec: the byte size of the fixed-size header structure
(sizeof(struct HSS_BootImage), from hss_types.h which is not under src/).  It
is used only as the byteCount argument of header reads, so any fixed value
serves. -/
def sizeof_HSS_BootImage : Nat := 1096

/-- Modelled from the spec: GPT logical-block size from gpt.h (not under
src/); used only as the scale factor from block offset to byte offset. -/
def GPT_LBA_SIZE : Nat := 512

/-- Embeds verifyMagic_ (hss_boot_init.c lines 244-256).  The C function takes
a const pointer; the returned second component is the (unchanged) pointee,
making the absence of mutation explicit.  The failure-branch diagnostic print
is observational only and is dropped. -/
def verifyMagic_ (pBootImage : HSS_BootImage) : Bool × HSS_BootImage :=
  let result := (pBootImage.magic == mHSS_BOOT_MAGIC) ||
                (pBootImage.magic == mHSS_COMPRESSED_MAGIC)
  (result, pBootImage)

/-- Embeds validateCrc_ (hss_boot_init.c lines 196-216).  CRC32_calculate over
the sizeof(struct HSS_BootImage) bytes of the header is an external collaborator
and is passed as the oracle crc32 acting on the header value (the C computation
reads the struct bytes with the headerCrc field zeroed).  The returned second
component is the pointee after the call: zeroed during computation, restored
unconditionally afterwards. -/
def validateCrc_ (crc32 : HSS_BootImage → Nat) (pImageHdr : HSS_BootImage) :
    Bool × HSS_BootImage :=
  let originalCrc := pImageHdr.headerCrc
  let zeroed := { pImageHdr with headerCrc := 0 }
  let headerCrc := crc32 zeroed
  let result := headerCrc == originalCrc
  let restored := { zeroed with headerCrc := originalCrc }
  (result, restored)

lemma validateCrc_snd (crc32 : HSS_BootImage → Nat) (h : HSS_BootImage) :
    (validateCrc_ crc32 h).2 = h := rfl

lemma validateCrc_fst (crc32 : HSS_BootImage → Nat) (h : HSS_BootImage) :
    (validateCrc_ crc32 h).1 = true ↔ crc32 { h with headerCrc := 0 } = h.headerCrc := by
  simp [validateCrc_]

/-- Observable events of one HSS_BootInit run, for the temporal claims.  Each
constructor corresponds to a call into an external collaborator or to reaching
a particular branch of the source; diagnostic prints that carry no data of
interest are not traced. -/
inductive BootEvent where
  /-- HSS_Decompress invoked with the given input header (line 137). -/
  | decompressCall (input : HSS_BootImage)
  /-- Inner branch taken when the result is false inside the compressed-magic
  guard (lines 127-128). -/
  | decompressErrNotGot
  /-- Inner branch taken when the image pointer is NULL inside the
  compressed-magic guard (lines 129-131). -/
  | decompressErrNull
  /-- validateCrc_ invoked on the given pointee (line 159). -/
  | validateCrcCall (h : HSS_BootImage)
  /-- HSS_Register_Boot_Image invoked with the given pointee (line 170). -/
  | registerBootImage (h : HSS_BootImage)
  /-- HSS_Boot_RestartCore invoked (line 176). -/
  | restartCores
  /-- Diagnostic CRC32 of the full claimed image length computed and logged on
  validation failure (lines 185-186). -/
  | fullCrcDiag (c : Nat)
  deriving DecidableEq, Repr

/-- Oracle environment for one HSS_BootInit run: the external collaborators the
pipeline itself calls, and one piece of undefined behaviour made explicit. -/
structure BootEnv where
  /-- CRC32_calculate over the sizeof(struct HSS_BootImage) bytes of a header
  value (external CRC32 primitive). -/
  crcHeader : HSS_BootImage → Nat
  /-- CRC32_calculate over the full bootImageLength bytes of the image whose
  header is given (diagnostic computation of line 186). -/
  crcImage : HSS_BootImage → Nat
  /-- Return value of HSS_Decompress (int; 0 means failure). -/
  decompressOutputSize : Int
  /-- Header found at CONFIG_SERVICE_BOOT_DDR_TARGET_ADDR after a successful
  decompression. -/
  ddrAfterDecompress : HSS_BootImage
  /-- Whether HSS_Boot_RestartCore(HSS_HART_ALL) returns IPI_SUCCESS. -/
  restartOk : Bool
  /-- Value read by the C expression pBootImage->magic when pBootImage is NULL
  (undefined behaviour; modelled as an arbitrary environment-chosen value). -/
  nullDerefMagic : Nat

/-- Magic field read through a possibly-NULL image pointer, as the guard on
line 125 does. -/
def ptrMagic (e : BootEnv) : Option HSS_BootImage → Nat
  | some img => img.magic
  | none => e.nullDerefMagic

/-- Embeds the decompression block of HSS_BootInit (lines 124-147, with
CONFIG_COMPRESSION enabled): given the acquisition result and image pointer, it
yields the updated result, updated pointer and the traced events.  The local
decompressedFlag feeds only diagnostic text and is dropped. -/
def decompressStage (e : BootEnv) (result : Bool) (pBootImage : Option HSS_BootImage) :
    Bool × Option HSS_BootImage × List BootEvent :=
  if result && (ptrMagic e pBootImage == mHSS_COMPRESSED_MAGIC) then
    if !result then
      (result, pBootImage, [BootEvent.decompressErrNotGot])
    else
      match pBootImage with
      | none => (false, none, [BootEvent.decompressErrNull])
      | some img =>
        if e.decompressOutputSize != 0 then
          (result, some e.ddrAfterDecompress, [BootEvent.decompressCall img])
        else
          (result, none, [BootEvent.decompressCall img])
  else
    (result, pBootImage, [])

/-- Embeds the validation/registration block of HSS_BootInit (lines 152-188,
with CONFIG_SERVICE_BOOT_CUSTOM_FLOW off).  Note that on the CRC-failure branch
the source leaves result unchanged. -/
def validateStage (e : BootEnv) (result : Bool) (pBootImage : Option HSS_BootImage) :
    Bool × Option HSS_BootImage × List BootEvent :=
  match pBootImage with
  | none => (false, none, [])
  | some img =>
    if img.magic != mHSS_BOOT_MAGIC then
      (false, some img, [])
    else
      let vc := validateCrc_ e.crcHeader img
      if vc.1 then
        (e.restartOk, some vc.2,
          [BootEvent.validateCrcCall img, BootEvent.registerBootImage vc.2,
           BootEvent.restartCores])
      else
        (result, some vc.2,
          [BootEvent.validateCrcCall img, BootEvent.fullCrcDiag (e.crcImage vc.2)])

/-- Embeds HSS_BootInit (lines 109-192) as a function of the active reader's
outcome: local result and pBootImage are initialised from the acquisition call
of line 118, threaded through the decompression block and the
validation/registration block.  Returns the final result together with the
final pBootImage value and the event trace (model observables). -/
def HSS_BootInit (e : BootEnv) (acquire : Bool × Option HSS_BootImage) :
    Bool × Option HSS_BootImage × List BootEvent :=
  let d := decompressStage e acquire.1 acquire.2
  let v := validateStage e d.1 d.2.1
  (v.1, v.2.1, d.2.2 ++ v.2.2)

lemma decompressStage_eq (e : BootEnv) (r : Bool) (p : Option HSS_BootImage) :
    decompressStage e r p =
      match r, p with
      | true, some img =>
        if img.magic == mHSS_COMPRESSED_MAGIC then
          (if e.decompressOutputSize != 0 then
            (true, some e.ddrAfterDecompress, [BootEvent.decompressCall img])
          else
            (true, none, [BootEvent.decompressCall img]))
        else (true, some img, [])
      | true, none =>
        if e.nullDerefMagic == mHSS_COMPRESSED_MAGIC then
          (false, none, [BootEvent.decompressErrNull])
        else (true, none, [])
      | false, _ => (false, p, []) := by
  cases r with
  | false => cases p <;> simp [decompressStage, ptrMagic]
  | true =>
    cases p with
    | none => simp [decompressStage, ptrMagic]
    | some img =>
      by_cases hm : img.magic = mHSS_COMPRESSED_MAGIC <;>
        simp [decompressStage, ptrMagic, hm]

lemma validateStage_eq (e : BootEnv) (r : Bool) (p : Option HSS_BootImage) :
    validateStage e r p =
      match p with
      | none => (false, none, [])
      | some img =>
        if img.magic == mHSS_BOOT_MAGIC then
          (if (validateCrc_ e.crcHeader img).1 then
            (e.restartOk, some img,
              [BootEvent.validateCrcCall img, BootEvent.registerBootImage img,
               BootEvent.restartCores])
          else
            (r, some img,
              [BootEvent.validateCrcCall img, BootEvent.fullCrcDiag (e.crcImage img)]))
        else (false, some img, []) := by
  cases p with
  | none => simp [validateStage]
  | some img =>
    by_cases hm : img.magic = mHSS_BOOT_MAGIC <;>
      simp [validateStage, hm, validateCrc_snd]

/-- Embeds copyBootImageToDDR_ (lines 228-242): it delegates to the per-medium
block-read primitive with the boot image length as byte count; pDest is the
fixed DDR target address and is dropped (the copied content is an environment
observable).  readOk gives the primitive's success as a function of (byte
offset, byte count). -/
def copyBootImageToDDR_ (readOk : Nat → Nat → Bool) (pBootImage : HSS_BootImage)
    (srcOffset : Nat) : Bool :=
  readOk srcOffset pBootImage.bootImageLength

/-- Oracle environment of getBootImageFromMMC_ with GPT enabled: outcomes of
the GPT collaborator calls and of the HSS_MMC_ReadBlock primitive. -/
structure MmcEnv where
  /-- Success of GPT_ReadHeader (line 285). -/
  gptReadHeaderOk : Bool
  /-- Success of GPT_ValidateHeader (line 288). -/
  gptValidateHeaderOk : Bool
  /-- Success of GPT_ValidatePartitionEntries (line 291). -/
  gptValidateEntriesOk : Bool
  /-- Outcome of GPT_FindPartitionByTypeId (line 308): first LBA on success. -/
  gptFindPartition : Option Nat
  /-- Success of HSS_MMC_ReadBlock as a function of (byte offset, byte count);
  used for both the header read (line 322) and the DDR copy (line 333). -/
  readBlockOk : Nat → Nat → Bool
  /-- Content of the bootImage scratch structure after a successful header read
  at the given byte offset.  On a failed read the destination is undefined, but
  the source checks the result and never examines it in that case. -/
  headerAt : Nat → HSS_BootImage
  /-- Content at CONFIG_SERVICE_BOOT_DDR_TARGET_ADDR after the copy step. -/
  ddrContent : HSS_BootImage

/-- Embeds the GPT block of getBootImageFromMMC_ (lines 277-317), yielding the
(result, srcOffset) pair it leaves behind: the nested result checks make the
net result the conjunction of the three table steps, and srcOffset becomes the
found partition's first LBA only when every step succeeded, staying 0
otherwise. -/
def mmcGptLookup (e : MmcEnv) : Bool × Nat :=
  if e.gptReadHeaderOk && e.gptValidateHeaderOk && e.gptValidateEntriesOk then
    match e.gptFindPartition with
    | some firstLBA => (true, firstLBA)
    | none => (false, 0)
  else (false, 0)

/-- Embeds the unconditional generic block of getBootImageFromMMC_ (lines
321-343, the block whose guard is commented out in the source): header read,
magic check on the scratch header, then DDR copy with *ppBootImage assigned
before the copy result is examined. -/
def mmcGenericPath (e : MmcEnv) (srcOffset : Nat) : Bool × Option HSS_BootImage :=
  if !(e.readBlockOk (srcOffset * GPT_LBA_SIZE) sizeof_HSS_BootImage) then
    (false, none)
  else
    let hdr := e.headerAt (srcOffset * GPT_LBA_SIZE)
    if !(verifyMagic_ hdr).1 then
      (false, none)
    else
      let result := copyBootImageToDDR_ e.readBlockOk hdr (srcOffset * GPT_LBA_SIZE)
      (result, some e.ddrContent)

/-- Embeds getBootImageFromMMC_ (lines 263-346) with
CONFIG_SERVICE_BOOT_MMC_USE_GPT enabled: GPT lookup, then the generic path runs
unconditionally at whatever srcOffset the lookup left (its result overwrites
the lookup's result at line 322). -/
def getBootImageFromMMC_ (e : MmcEnv) : Bool × Option HSS_BootImage :=
  let lk := mmcGptLookup e
  mmcGenericPath e lk.2

/-- Oracle environment of getBootImageFromSpiFlash_. -/
structure SpiEnv where
  /-- CONFIG_SERVICE_BOOT_SPI_FLASH_OFFSET. -/
  srcOffset : Nat
  /-- Success of spiFlashReadBlock_ as a function of (byte offset, byte
  count); used for the header read (line 444) and the DDR copy (line 454). -/
  readOk : Nat → Nat → Bool
  /-- Content of the bootImage scratch structure after a successful header
  read. -/
  headerRead : HSS_BootImage
  /-- Content at CONFIG_SERVICE_BOOT_DDR_TARGET_ADDR after the copy step. -/
  ddrContent : HSS_BootImage

/-- Embeds getBootImageFromSpiFlash_ (lines 431-459): early return false on a
failed header read or a failed magic check (leaving *ppBootImage untouched,
hence NULL), then DDR copy with *ppBootImage assigned before the copy result is
returned. -/
def getBootImageFromSpiFlash_ (e : SpiEnv) : Bool × Option HSS_BootImage :=
  let result := e.readOk e.srcOffset sizeof_HSS_BootImage
  if !result then
    (false, none)
  else
    let result := (verifyMagic_ e.headerRead).1
    if !result then
      (false, none)
    else
      let result := copyBootImageToDDR_ e.readOk e.headerRead e.srcOffset
      (result, some e.ddrContent)

/-- Oracle environment of getBootImageFromQSPI_ (non-XIP path). -/
structure QspiEnv where
  /-- Success of HSS_QSPI_ReadBlock as a function of (byte offset, byte
  count). -/
  readOk : Nat → Nat → Bool
  /-- Content of the bootImage scratch structure after the header read of line
  370: the medium's header when that read succeeded, otherwise undefined
  (environment-chosen stale content, per the collaborator contract that a
  failed read leaves the destination undefined). -/
  scratchAfterHeaderRead : HSS_BootImage
  /-- Content at CONFIG_SERVICE_BOOT_DDR_TARGET_ADDR after the copy step. -/
  ddrContent : HSS_BootImage

/-- Embeds getBootImageFromQSPI_ (lines 356-387) without
CONFIG_SERVICE_QSPI_USE_XIP: the boolean returned by the header read of line
370 is discarded by the source, so the magic check runs on whatever the scratch
structure then holds; on magic success the DDR copy's result is returned with
*ppBootImage assigned before it is examined. -/
def getBootImageFromQSPI_ (e : QspiEnv) : Bool × Option HSS_BootImage :=
  let _discardedHeaderReadResult := e.readOk 0 sizeof_HSS_BootImage
  let result := (verifyMagic_ e.scratchAfterHeaderRead).1
  if result then
    let result := copyBootImageToDDR_ e.readOk e.scratchAfterHeaderRead 0
    (result, some e.ddrContent)
  else
    (result, none)

/-- Embeds getBootImageFromPayload_ (lines 397-410): *ppBootImage is set to the
link-resolved payload address (never NULL) before the magic check, whose result
is returned. -/
def getBootImageFromPayload_ (payloadHeader : HSS_BootImage) :
    Bool × Option HSS_BootImage :=
  let ppBootImage := some payloadHeader
  ((verifyMagic_ payloadHeader).1, ppBootImage)

/-- Concrete fixture: a plain-magic header whose stored headerCrc matches the
fixture CRC oracle crcEx. -/
def hdrEx : HSS_BootImage :=
  { magic := mHSS_BOOT_MAGIC, headerCrc := 42, bootImageLength := 4096,
    set_name := "fixture-image" }

/-- Concrete fixture: a compressed-magic header. -/
def hdrCompEx : HSS_BootImage :=
  { magic := mHSS_COMPRESSED_MAGIC, headerCrc := 42, bootImageLength := 4096,
    set_name := "fixture-compressed" }

/-- Concrete fixture CRC oracle under which hdrEx validates. -/
def crcEx : HSS_BootImage → Nat := fun _ => 42

/-- Concrete fixture pipeline environment. -/
def bootEnvEx : BootEnv :=
  { crcHeader := crcEx, crcImage := fun _ => 7, decompressOutputSize := 1,
    ddrAfterDecompress := hdrEx, restartOk := true, nullDerefMagic := 0 }

/-- Concrete fixture pipeline environment whose decompressor returns 0. -/
def bootEnvZeroDecomp : BootEnv :=
  { bootEnvEx with decompressOutputSize := 0 }

/-- Concrete fixture MMC environment: every GPT step fails, the header read
(byte count sizeof_HSS_BootImage) succeeds and yields hdrEx, and the full-image
copy (byte count 4096) fails. -/
def mmcEnvEx : MmcEnv :=
  { gptReadHeaderOk := false, gptValidateHeaderOk := false,
    gptValidateEntriesOk := false, gptFindPartition := none,
    readBlockOk := fun _ cnt => cnt == sizeof_HSS_BootImage,
    headerAt := fun _ => hdrEx, ddrContent := hdrEx }

/-- Concrete fixture QSPI environment: the header read fails while the scratch
structure holds a valid-magic header, and the full-image copy succeeds. -/
def qspiEnvEx : QspiEnv :=
  { readOk := fun _ cnt => !(cnt == sizeof_HSS_BootImage),
    scratchAfterHeaderRead := hdrEx, ddrContent := hdrEx }

/-- Concrete fixture SPI environment whose block reads always fail. -/
def spiEnvEx : SpiEnv :=
  { srcOffset := 2048, readOk := fun _ _ => false,
    headerRead := hdrEx, ddrContent := hdrEx }

lemma mem_decompressStage (e : BootEnv) (r : Bool) (p : Option HSS_BootImage)
    (ev : BootEvent) (h : ev ∈ (decompressStage e r p).2.2) :
    (ev = BootEvent.decompressErrNull ∧ r = true ∧ p = none) ∨
    (∃ img, p = some img ∧ r = true ∧ img.magic = mHSS_COMPRESSED_MAGIC ∧
      ev = BootEvent.decompressCall img) := by
  rw [decompressStage_eq] at h
  cases r with
  | false => cases p <;> simp at h
  | true =>
    cases p with
    | none =>
      cases hc : (e.nullDerefMagic == mHSS_COMPRESSED_MAGIC) <;> simp [hc] at h
      exact Or.inl ⟨h, rfl, rfl⟩
    | some img =>
      cases hs : (e.decompressOutputSize != 0) <;>
        cases hc : (img.magic == mHSS_COMPRESSED_MAGIC) <;> simp [hc, hs] at h <;>
        exact Or.inr ⟨img, rfl, rfl, by simpa using hc, h⟩

lemma mem_validateStage (e : BootEnv) (r : Bool) (p : Option HSS_BootImage)
    (ev : BootEvent) (h : ev ∈ (validateStage e r p).2.2) :
    (∃ i, ev = BootEvent.validateCrcCall i) ∨
    (∃ i, ev = BootEvent.registerBootImage i) ∨
    ev = BootEvent.restartCores ∨ (∃ c, ev = BootEvent.fullCrcDiag c) := by
  rw [validateStage_eq] at h
  cases p with
  | none => simp at h
  | some i =>
    by_cases hm : i.magic = mHSS_BOOT_MAGIC
    · cases hv : (validateCrc_ e.crcHeader i).1 <;> simp [hm, hv] at h
      · rcases h with h | h
        · exact Or.inl ⟨i, h⟩
        · exact Or.inr (Or.inr (Or.inr ⟨_, h⟩))
      · rcases h with h | h | h
        · exact Or.inl ⟨i, h⟩
        · exact Or.inr (Or.inl ⟨i, h⟩)
        · exact Or.inr (Or.inr (Or.inl h))
    · simp [hm] at h

lemma validateStage_registerBootImage (e : BootEnv) (r : Bool)
    (p : Option HSS_BootImage) (img : HSS_BootImage)
    (h : BootEvent.registerBootImage img ∈ (validateStage e r p).2.2) :
    p = some img ∧ img.magic = mHSS_BOOT_MAGIC ∧
    (validateCrc_ e.crcHeader img).1 = true ∧
    BootEvent.validateCrcCall img ∈ (validateStage e r p).2.2 := by
  rw [validateStage_eq] at h ⊢
  cases p with
  | none => simp at h
  | some i =>
    by_cases hm : i.magic = mHSS_BOOT_MAGIC
    · cases hv : (validateCrc_ e.crcHeader i).1 <;> simp [hm, hv] at h ⊢
      subst h
      exact ⟨rfl, hm, hv, rfl⟩
    · simp [hm] at h

lemma HSS_BootInit_decompressCall_inv (e : BootEnv)
    (a : Bool × Option HSS_BootImage) (img : HSS_BootImage)
    (h : BootEvent.decompressCall img ∈ (HSS_BootInit e a).2.2) :
    a.1 = true ∧ a.2 = some img ∧ img.magic = mHSS_COMPRESSED_MAGIC := by
  simp only [HSS_BootInit, List.mem_append] at h
  rcases h with h | h
  · rcases mem_decompressStage _ _ _ _ h with ⟨he, _, _⟩ | ⟨i, hp, hr, hmg, he⟩
    · simp at he
    · rw [BootEvent.decompressCall.injEq] at he
      subst he
      exact ⟨hr, hp, hmg⟩
  · rcases mem_validateStage _ _ _ _ h with ⟨i, he⟩ | ⟨i, he⟩ | he | ⟨c, he⟩ <;>
      simp at he

lemma HSS_BootInit_registerBootImage_inv (e : BootEnv)
    (a : Bool × Option HSS_BootImage) (img : HSS_BootImage)
    (h : BootEvent.registerBootImage img ∈ (HSS_BootInit e a).2.2) :
    img.magic = mHSS_BOOT_MAGIC ∧ (validateCrc_ e.crcHeader img).1 = true ∧
    BootEvent.validateCrcCall img ∈ (HSS_BootInit e a).2.2 := by
  simp only [HSS_BootInit, List.mem_append] at h ⊢
  rcases h with h | h
  · rcases mem_decompressStage _ _ _ _ h with ⟨he, _, _⟩ | ⟨i, _, _, _, he⟩ <;>
      simp at he
  · have hv := validateStage_registerBootImage _ _ _ _ h
    exact ⟨hv.2.1, hv.2.2.1, Or.inr hv.2.2.2⟩

lemma HSS_BootInit_false_none (e : BootEnv) :
    HSS_BootInit e (false, none) = (false, none, []) := rfl

/-- C1: In every modelled execution of HSS_BootInit, HSS_Register_Boot_Image is
invoked only on a validated image: a registered header (the event carries the
non-null pointer's pointee) has magic equal to the plain sentinel
mHSS_BOOT_MAGIC, validateCrc_ returned true on it, and that validateCrc_ call
is part of the same run. -/
theorem register_only_validated (e : BootEnv) (a : Bool × Option HSS_BootImage)
    (img : HSS_BootImage)
    (hmem : BootEvent.registerBootImage img ∈ (HSS_BootInit e a).2.2) :
    img.magic = mHSS_BOOT_MAGIC ∧ (validateCrc_ e.crcHeader img).1 = true ∧
    BootEvent.validateCrcCall img ∈ (HSS_BootInit e a).2.2 :=
  HSS_BootInit_registerBootImage_inv e a img hmem

/-- C1 witness: a concrete run in which registration occurs, at which the
theorem's hypotheses hold. -/
theorem register_only_validated_witness :
    hdrEx.magic = mHSS_BOOT_MAGIC ∧
    (validateCrc_ bootEnvEx.crcHeader hdrEx).1 = true ∧
    BootEvent.validateCrcCall hdrEx ∈
      (HSS_BootInit bootEnvEx (true, some hdrEx)).2.2 :=
  register_only_validated bootEnvEx (true, some hdrEx) hdrEx (by decide)

/-- C4: validateCrc_ leaves the header exactly as it found it: the headerCrc
field is zeroed during the computation and restored unconditionally, and no
other field changes, so the post-call pointee equals the pre-call one whether
the check passes or fails. -/
theorem validateCrc_frame_effect (crc32 : HSS_BootImage → Nat)
    (h : HSS_BootImage) : (validateCrc_ crc32 h).2 = h := rfl

/-- C8: verifyMagic_ returns true exactly when the header's magic equals the
plain sentinel or the compressed sentinel, and the header it hands back is
unchanged. -/
theorem verifyMagic_spec (h : HSS_BootImage) :
    ((verifyMagic_ h).1 = true ↔
      (h.magic = mHSS_BOOT_MAGIC ∨ h.magic = mHSS_COMPRESSED_MAGIC)) ∧
    (verifyMagic_ h).2 = h := by
  refine ⟨?_, rfl⟩
  simp [verifyMagic_]

/-- C8 witness: the theorem applied at a concrete plain-magic header. -/
theorem verifyMagic_spec_witness :
    (verifyMagic_ hdrEx).1 = true ∧ (verifyMagic_ hdrEx).2 = hdrEx :=
  ⟨(verifyMagic_spec hdrEx).1.mpr (Or.inl rfl), (verifyMagic_spec hdrEx).2⟩

/-- C9: calling validateCrc_ twice in immediate succession (the second call on
the pointee the first call left behind) yields the same boolean both times. -/
theorem validateCrc_idempotent (crc32 : HSS_BootImage → Nat)
    (h : HSS_BootImage) :
    (validateCrc_ crc32 ((validateCrc_ crc32 h).2)).1 = (validateCrc_ crc32 h).1 := by
  rw [validateCrc_snd]

lemma validateStage_fullCrcDiag (e : BootEnv) (r : Bool)
    (p : Option HSS_BootImage) :
    (∃ c, BootEvent.fullCrcDiag c ∈ (validateStage e r p).2.2) ↔
    (∃ img, (validateStage e r p).2.1 = some img ∧
      img.magic = mHSS_BOOT_MAGIC ∧ (validateCrc_ e.crcHeader img).1 = false) := by
  rw [validateStage_eq]
  cases p with
  | none => simp
  | some i =>
    by_cases hm : i.magic = mHSS_BOOT_MAGIC
    · cases hv : (validateCrc_ e.crcHeader i).1 <;> simp [hm, hv]
    · simp [hm]

lemma decompressStage_crcImage (e : BootEnv) (g : HSS_BootImage → Nat)
    (r : Bool) (p : Option HSS_BootImage) :
    decompressStage { e with crcImage := g } r p = decompressStage e r p := by
  cases p <;> rfl

lemma validateStage_crcImage_fst (e : BootEnv) (g : HSS_BootImage → Nat)
    (r : Bool) (p : Option HSS_BootImage) :
    (validateStage { e with crcImage := g } r p).1 = (validateStage e r p).1 := by
  rw [validateStage_eq, validateStage_eq]
  cases p with
  | none => rfl
  | some i =>
    by_cases hm : i.magic = mHSS_BOOT_MAGIC
    · cases hv : (validateCrc_ e.crcHeader i).1 <;> simp [hm, hv]
    · simp [hm]

/-- C3: the enforced CRC check is the header-only one and the full-image CRC is
diagnostic only.  First, validateCrc_ passes exactly when the CRC oracle over
the fixed-size header with its headerCrc field zeroed equals the stored
headerCrc.  Second, in any HSS_BootInit run the diagnostic full-length CRC is
computed and logged exactly when the validated pointer holds a plain-magic
header that failed the header CRC check.  Third, the boolean the pipeline
returns never depends on the full-image CRC oracle. -/
theorem crc_header_gate_spec :
    (∀ (crc32 : HSS_BootImage → Nat) (h : HSS_BootImage),
      ((validateCrc_ crc32 h).1 = true ↔
        crc32 { h with headerCrc := 0 } = h.headerCrc))
  ∧ (∀ (e : BootEnv) (a : Bool × Option HSS_BootImage),
      ((∃ c, BootEvent.fullCrcDiag c ∈ (HSS_BootInit e a).2.2) ↔
       (∃ img, (HSS_BootInit e a).2.1 = some img ∧
         img.magic = mHSS_BOOT_MAGIC ∧ (validateCrc_ e.crcHeader img).1 = false)))
  ∧ (∀ (e : BootEnv) (g : HSS_BootImage → Nat) (a : Bool × Option HSS_BootImage),
      (HSS_BootInit { e with crcImage := g } a).1 = (HSS_BootInit e a).1) := by
  refine ⟨validateCrc_fst, ?_, ?_⟩
  · intro e a
    simp only [HSS_BootInit, List.mem_append]
    constructor
    · rintro ⟨c, hc | hc⟩
      · rcases mem_decompressStage _ _ _ _ hc with ⟨he, _, _⟩ | ⟨i, _, _, _, he⟩ <;>
          simp at he
      · exact (validateStage_fullCrcDiag _ _ _).mp ⟨c, hc⟩
    · intro h
      obtain ⟨c, hc⟩ := (validateStage_fullCrcDiag _ _ _).mpr h
      exact ⟨c, Or.inr hc⟩
  · intro e g a
    simp only [HSS_BootInit]
    rw [decompressStage_crcImage, validateStage_crcImage_fst]

/-- C3 witness: the first conjunct applied at a concrete CRC oracle and header
it accepts. -/
theorem crc_header_gate_spec_witness :
    (validateCrc_ bootEnvEx.crcHeader hdrEx).1 = true :=
  (crc_header_gate_spec.1 bootEnvEx.crcHeader hdrEx).mpr (by decide)

/-- C2 counterexample: the validation block of HSS_BootInit is not guarded by
the predecessor's boolean.  With the concrete MMC environment mmcEnvEx the
reader's DDR copy step fails, so the active reader returns false — yet it has
already stored the (non-null) DDR pointer, and the subsequent HSS_BootInit run
still performs the magic/CRC validation stage, calls HSS_Register_Boot_Image,
and even returns true. -/
theorem stage_gating_counterexample :
    (getBootImageFromMMC_ mmcEnvEx).1 = false ∧
    BootEvent.validateCrcCall hdrEx ∈
      (HSS_BootInit bootEnvEx (getBootImageFromMMC_ mmcEnvEx)).2.2 ∧
    BootEvent.registerBootImage hdrEx ∈
      (HSS_BootInit bootEnvEx (getBootImageFromMMC_ mmcEnvEx)).2.2 ∧
    (HSS_BootInit bootEnvEx (getBootImageFromMMC_ mmcEnvEx)).1 = true := by
  decide

/-- C2 amended: in HSS_BootInit the decompression stage does check the
acquisition result before invoking the decompressor, and when the active reader
returns false without having stored an image pointer, neither the magic/CRC
validation work nor registration happens; but the validation block is guarded
only by pointer-nullness and its own magic/CRC checks, not by the predecessor's
boolean, so a reader that returns false after storing a non-null pointer still
has validation performed, with registration gated solely on those checks. -/
theorem stage_gating_amended :
    (∀ (e : BootEnv) (a : Bool × Option HSS_BootImage) (img : HSS_BootImage),
      BootEvent.decompressCall img ∈ (HSS_BootInit e a).2.2 → a.1 = true)
  ∧ (∀ e : BootEnv, HSS_BootInit e (false, none) = (false, none, []))
  ∧ (∀ (e : BootEnv) (a : Bool × Option HSS_BootImage) (img : HSS_BootImage),
      BootEvent.registerBootImage img ∈ (HSS_BootInit e a).2.2 →
      img.magic = mHSS_BOOT_MAGIC ∧ (validateCrc_ e.crcHeader img).1 = true) := by
  refine ⟨?_, HSS_BootInit_false_none, ?_⟩
  · intro e a img h
    exact (HSS_BootInit_decompressCall_inv e a img h).1
  · intro e a img h
    have hv := HSS_BootInit_registerBootImage_inv e a img h
    exact ⟨hv.1, hv.2.1⟩

/-- C2 amended witness: the skip conjunct applied at a concrete environment. -/
theorem stage_gating_amended_witness :
    HSS_BootInit bootEnvEx (false, none) = (false, none, []) :=
  stage_gating_amended.2.1 bootEnvEx

/-- C5 counterexample: the non-XIP QSPI reader does not turn a failed initial
header read into a failed acquire.  In the concrete environment qspiEnvEx the
block-read primitive fails on the sizeof(header) read (its boolean is discarded
by the source), the scratch structure holds a stale valid-magic header, the
copy read succeeds — and the reader returns true. -/
theorem qspi_read_failure_counterexample :
    qspiEnvEx.readOk 0 sizeof_HSS_BootImage = false ∧
    (getBootImageFromQSPI_ qspiEnvEx).1 = true := by
  decide

/-- C5 amended: for the SPI flash and MMC readers a failure of the block-read
primitive at either step (the sizeof(header) read or the bootImageLength copy)
makes acquire return false, a failed first read additionally leaves the image
pointer unset so the subsequent HSS_BootInit run performs no CRC check and no
registration; the non-XIP QSPI reader, however, discards the boolean of its
initial header read, and only the magic check on the scratch contents and the
boolean of the copy read gate its success. -/
theorem read_failure_handling_amended :
    (∀ e : SpiEnv, e.readOk e.srcOffset sizeof_HSS_BootImage = false →
       getBootImageFromSpiFlash_ e = (false, none))
  ∧ (∀ e : SpiEnv, (getBootImageFromSpiFlash_ e).1 = true →
       e.readOk e.srcOffset sizeof_HSS_BootImage = true ∧
       e.readOk e.srcOffset e.headerRead.bootImageLength = true)
  ∧ (∀ e : MmcEnv,
       e.readBlockOk ((mmcGptLookup e).2 * GPT_LBA_SIZE) sizeof_HSS_BootImage = false →
       getBootImageFromMMC_ e = (false, none))
  ∧ (∀ e : MmcEnv, (getBootImageFromMMC_ e).1 = true →
       e.readBlockOk ((mmcGptLookup e).2 * GPT_LBA_SIZE) sizeof_HSS_BootImage = true ∧
       e.readBlockOk ((mmcGptLookup e).2 * GPT_LBA_SIZE)
         (e.headerAt ((mmcGptLookup e).2 * GPT_LBA_SIZE)).bootImageLength = true)
  ∧ (∀ e : QspiEnv, (getBootImageFromQSPI_ e).1 = true →
       e.readOk 0 e.scratchAfterHeaderRead.bootImageLength = true)
  ∧ (∀ (e : SpiEnv) (b : BootEnv),
       e.readOk e.srcOffset sizeof_HSS_BootImage = false →
       (HSS_BootInit b (getBootImageFromSpiFlash_ e)).2.2 = [] ∧
       (HSS_BootInit b (getBootImageFromSpiFlash_ e)).1 = false) := by
  have hspi : ∀ e : SpiEnv, e.readOk e.srcOffset sizeof_HSS_BootImage = false →
      getBootImageFromSpiFlash_ e = (false, none) := by
    intro e h
    simp [getBootImageFromSpiFlash_, h]
  refine ⟨hspi, ?_, ?_, ?_, ?_, ?_⟩
  · intro e h
    unfold getBootImageFromSpiFlash_ at h
    cases h1 : e.readOk e.srcOffset sizeof_HSS_BootImage <;> simp [h1] at h
    cases h2 : (verifyMagic_ e.headerRead).1 <;>
      simp [h2, copyBootImageToDDR_] at h
    exact ⟨rfl, h⟩
  · intro e h
    simp only [getBootImageFromMMC_]
    simp [mmcGenericPath, h]
  · intro e h
    simp only [getBootImageFromMMC_] at h
    unfold mmcGenericPath at h
    cases h1 : e.readBlockOk ((mmcGptLookup e).2 * GPT_LBA_SIZE) sizeof_HSS_BootImage <;>
      simp [h1] at h
    cases h2 : (verifyMagic_ (e.headerAt ((mmcGptLookup e).2 * GPT_LBA_SIZE))).1 <;>
      simp [h2, copyBootImageToDDR_] at h
    exact ⟨rfl, h⟩
  · intro e h
    unfold getBootImageFromQSPI_ at h
    cases h1 : (verifyMagic_ e.scratchAfterHeaderRead).1 <;>
      simp [h1, copyBootImageToDDR_] at h
    exact h
  · intro e b h
    rw [hspi e h, HSS_BootInit_false_none]
    exact ⟨rfl, rfl⟩

/-- C5 amended witness: the SPI first conjunct applied at a concrete
environment whose reads fail. -/
theorem read_failure_handling_witness :
    getBootImageFromSpiFlash_ spiEnvEx = (false, none) :=
  read_failure_handling_amended.1 spiEnvEx rfl

/-- C6: for the MMC reader with GPT enabled, whenever the partition-table
lookup fails at any of its four steps, srcOffset stays 0 and the reader is
exactly the generic two-step path at block offset 0 (the source's fall-through
whose guard is commented out): a lookup failure alone never makes acquire
return false, and the outcome is whatever the reads and the header at offset 0
give. -/
theorem mmc_partition_fallback (e : MmcEnv)
    (h : e.gptReadHeaderOk = false ∨ e.gptValidateHeaderOk = false ∨
         e.gptValidateEntriesOk = false ∨ e.gptFindPartition = none) :
    getBootImageFromMMC_ e = mmcGenericPath e 0 := by
  have h0 : (mmcGptLookup e).2 = 0 := by
    unfold mmcGptLookup
    rcases h with h | h | h | h
    · simp [h]
    · simp [h]
    · simp [h]
    · cases hc : (e.gptReadHeaderOk && e.gptValidateHeaderOk &&
        e.gptValidateEntriesOk) <;> simp [h, hc]
  simp only [getBootImageFromMMC_]
  rw [h0]

/-- C6 witness: the theorem applied at a concrete environment whose GPT header
read fails. -/
theorem mmc_partition_fallback_witness :
    getBootImageFromMMC_ mmcEnvEx = mmcGenericPath mmcEnvEx 0 :=
  mmc_partition_fallback mmcEnvEx (Or.inl rfl)

/-- C7: HSS_Decompress is invoked only when acquisition succeeded and the
acquired (non-null) header's magic equals the compressed sentinel; a header
with plain magic never invokes it; and when the guard holds but the
decompressor returns 0, the image pointer becomes null and the pipeline
returns false. -/
theorem decompression_gating :
    (∀ (e : BootEnv) (a : Bool × Option HSS_BootImage) (img : HSS_BootImage),
       BootEvent.decompressCall img ∈ (HSS_BootInit e a).2.2 →
       a.1 = true ∧ a.2 = some img ∧ img.magic = mHSS_COMPRESSED_MAGIC)
  ∧ (∀ (e : BootEnv) (a : Bool × Option HSS_BootImage) (img : HSS_BootImage),
       a.2 = some img → img.magic = mHSS_BOOT_MAGIC →
       ∀ i, BootEvent.decompressCall i ∉ (HSS_BootInit e a).2.2)
  ∧ (∀ (e : BootEnv) (img : HSS_BootImage),
       img.magic = mHSS_COMPRESSED_MAGIC → e.decompressOutputSize = 0 →
       (HSS_BootInit e (true, some img)).1 = false ∧
       (HSS_BootInit e (true, some img)).2.1 = none) := by
  refine ⟨HSS_BootInit_decompressCall_inv, ?_, ?_⟩
  · intro e a img hp hmag i hmem
    obtain ⟨-, hp2, hc⟩ := HSS_BootInit_decompressCall_inv e a i hmem
    rw [hp] at hp2
    obtain rfl : img = i := by injection hp2
    rw [hmag] at hc
    exact absurd hc (by decide)
  · intro e img hmag hsize
    simp only [HSS_BootInit]
    rw [decompressStage_eq]
    simp [hmag, hsize, validateStage_eq]

/-- C7 witness: the zero-output conjunct applied at a concrete compressed
header and an environment whose decompressor returns 0. -/
theorem decompression_gating_witness :
    (HSS_BootInit bootEnvZeroDecomp (true, some hdrCompEx)).1 = false ∧
    (HSS_BootInit bootEnvZeroDecomp (true, some hdrCompEx)).2.1 = none :=
  decompression_gating.2.2 bootEnvZeroDecomp hdrCompEx rfl rfl

/-- C10: every modelled source reader that returns true has stored a non-null
image pointer, and consequently, for any acquisition outcome satisfying that
invariant, the two inner error branches of the decompression block of
HSS_BootInit (result false; image pointer NULL) are never reached. -/
theorem dead_decompress_branches :
    (∀ h : HSS_BootImage, (getBootImageFromPayload_ h).1 = true →
       (getBootImageFromPayload_ h).2 ≠ none)
  ∧ (∀ e : QspiEnv, (getBootImageFromQSPI_ e).1 = true →
       (getBootImageFromQSPI_ e).2 ≠ none)
  ∧ (∀ e : MmcEnv, (getBootImageFromMMC_ e).1 = true →
       (getBootImageFromMMC_ e).2 ≠ none)
  ∧ (∀ e : SpiEnv, (getBootImageFromSpiFlash_ e).1 = true →
       (getBootImageFromSpiFlash_ e).2 ≠ none)
  ∧ (∀ (e : BootEnv) (a : Bool × Option HSS_BootImage),
       (a.1 = true → a.2 ≠ none) →
       BootEvent.decompressErrNotGot ∉ (HSS_BootInit e a).2.2 ∧
       BootEvent.decompressErrNull ∉ (HSS_BootInit e a).2.2) := by
  refine ⟨?_, ?_, ?_, ?_, ?_⟩
  · intro h _
    simp [getBootImageFromPayload_]
  · intro e h
    unfold getBootImageFromQSPI_ at h ⊢
    cases h1 : (verifyMagic_ e.scratchAfterHeaderRead).1 <;> simp [h1] at h ⊢
  · intro e h
    simp only [getBootImageFromMMC_] at h ⊢
    unfold mmcGenericPath at h ⊢
    cases h1 : e.readBlockOk ((mmcGptLookup e).2 * GPT_LBA_SIZE)
        sizeof_HSS_BootImage <;> simp [h1] at h ⊢
    cases h2 : (verifyMagic_
        (e.headerAt ((mmcGptLookup e).2 * GPT_LBA_SIZE))).1 <;>
      simp [h2] at h ⊢
  · intro e h
    unfold getBootImageFromSpiFlash_ at h ⊢
    cases h1 : e.readOk e.srcOffset sizeof_HSS_BootImage <;> simp [h1] at h ⊢
    cases h2 : (verifyMagic_ e.headerRead).1 <;> simp [h2] at h ⊢
  · intro e a hinv
    constructor
    · intro hmem
      simp only [HSS_BootInit, List.mem_append] at hmem
      rcases hmem with h | h
      · rcases mem_decompressStage _ _ _ _ h with ⟨he, -, -⟩ | ⟨i, -, -, -, he⟩ <;>
          simp at he
      · rcases mem_validateStage _ _ _ _ h with ⟨i, he⟩ | ⟨i, he⟩ | he | ⟨c, he⟩ <;>
          simp at he
    · intro hmem
      simp only [HSS_BootInit, List.mem_append] at hmem
      rcases hmem with h | h
      · rcases mem_decompressStage _ _ _ _ h with ⟨-, hr, hp⟩ | ⟨i, -, -, -, he⟩
        · exact hinv hr hp
        · simp at he
      · rcases mem_validateStage _ _ _ _ h with ⟨i, he⟩ | ⟨i, he⟩ | he | ⟨c, he⟩ <;>
          simp at he

/-- C10 witness: the payload conjunct and the dead-branch conjunct applied at
concrete inputs. -/
theorem dead_decompress_branches_witness :
    (getBootImageFromPayload_ hdrEx).2 ≠ none ∧
    BootEvent.decompressErrNotGot ∉
      (HSS_BootInit bootEnvEx (true, some hdrEx)).2.2 ∧
    BootEvent.decompressErrNull ∉
      (HSS_BootInit bootEnvEx (true, some hdrEx)).2.2 :=
  ⟨dead_decompress_branches.1 hdrEx rfl,
   (dead_decompress_branches.2.2.2.2 bootEnvEx (true, some hdrEx)
      (fun _ => Option.some_ne_none _)).1,
   (dead_decompress_branches.2.2.2.2 bootEnvEx (true, some hdrEx)
      (fun _ => Option.some_ne_none _)).2⟩
